import Mathlib

/-!
Shallow embedding of `rag_gemini_embeddings.py`: a RAG orchestration layer
over an embedding provider, a vector store, and a generation provider.

Modelling conventions:
* Every remote call is an explicit function parameter gathered in `Providers`;
  a call that raises in Python is a call returning `Except.error msg` here.
* Python dicts with string keys and string values are association lists
  (`PyDict`), so that a missing key (`d[k]` raising `KeyError`) is
  representable; `d.get(k, default)` is `dictGetD`.
* Python floats are modelled as rationals (`ℚ`).
* A Python function that can raise is embedded as returning `Except String α`;
  an uncaught exception is `Except.error`.
-/

namespace RagGemini

/-- A Python dict with string keys and string values, as an association list. -/
abbrev PyDict := List (String × String)

/-- Python `d.get(key, default)`. -/
def dictGetD (d : PyDict) (k dflt : String) : String :=
  (d.lookup k).getD dflt

/-- Python `d[key]`: the value, or a `KeyError` when the key is absent. -/
def dictGet (d : PyDict) (k : String) : Except String String :=
  match d.lookup k with
  | some v => Except.ok v
  | none => Except.error ("KeyError: " ++ k)

/-- A scored point returned by the vector store search
(`qdrant_client.query_points(...).points` elements): a payload dict and a
similarity score. -/
structure ScoredPoint where
  payload : PyDict
  score : ℚ

/-- The remote collaborators, as explicit oracles.  Each field models one
external call site of the source file:
* `embed_content`: `genai.embed_content(...)["embedding"]` — the embedding
  vector for a text, or a provider error;
* `query_points`: `qdrant_client.query_points(collection, query, limit,
  query_filter, with_payload=True).points` — takes the query vector, the
  limit, and the (optional) exact-match chapter filter;
* `qdrant_upsert`: `qdrant_client.upsert(collection, points=[point])` —
  takes the point id, vector and payload;
* `generate_content`: `gemini_model.generate_content(prompt).text`. -/
structure Providers where
  embed_content : String → Except String (List ℚ)
  query_points : List ℚ → Nat → Option String → Except String (List ScoredPoint)
  qdrant_upsert : String → List ℚ → PyDict → Except String Unit
  generate_content : String → Except String String

/-- Python `generate_embedding(text)`: calls the embedding provider; on any failure
returns a vector of 768 zeros instead of propagating the error. -/
def generate_embedding (P : Providers) (text : String) : List ℚ :=
  match P.embed_content text with
  | Except.ok v => v
  | Except.error _ => List.replicate 768 0

/-- The payload written by `upsert_document`: `{text, chapter, section,
file_path}`, with missing metadata fields defaulting to the empty string. -/
def upsertPayload (text : String) (metadata : PyDict) : PyDict :=
  [("text", text),
   ("chapter", dictGetD metadata "chapter" ""),
   ("section", dictGetD metadata "section" ""),
   ("file_path", dictGetD metadata "file_path" "")]

/-- Python `upsert_document(chunk_id, text, metadata)`: embeds the text (guarded,
degrading to the zero vector) and writes the point.  The vector-store write
itself is *not* guarded: its failure propagates to the caller. -/
def upsert_document (P : Providers) (chunk_id text : String) (metadata : PyDict) :
    Except String Unit :=
  let vector := generate_embedding P text
  P.qdrant_upsert chunk_id vector (upsertPayload text metadata)

/-- The `search_filter` built by `search_similar_chunks`: Python
`if chapter_filter:` is truthy only for a non-`None`, non-empty string. -/
def mkSearchFilter (chapter_filter : Option String) : Option String :=
  match chapter_filter with
  | some c => if c == "" then none else some c
  | none => none

/-- The chunk dict built from one search result:
`{"text", "chapter", "section", "score", "file_path"}`, payload fields read
with `payload.get(key, "")`. -/
structure Chunk where
  text : String
  chapter : String
  «section» : String
  score : ℚ
  file_path : String

/-- The conversion of one `ScoredPoint` into the chunk dict, as in the body of
the result loop of `search_similar_chunks`. -/
def chunkOfPoint (r : ScoredPoint) : Chunk :=
  { text := dictGetD r.payload "text" ""
    chapter := dictGetD r.payload "chapter" ""
    «section» := dictGetD r.payload "section" ""
    score := r.score
    file_path := dictGetD r.payload "file_path" "" }

/-- Python `search_similar_chunks(query, limit, chapter_filter)`: embeds the query,
queries the vector store, converts the returned points; returns `[]` instead
of raising when the search call fails. -/
def search_similar_chunks (P : Providers) (query : String) (limit : Nat)
    (chapter_filter : Option String) : List Chunk :=
  let query_vector := generate_embedding P query
  let search_filter := mkSearchFilter chapter_filter
  match P.query_points query_vector limit search_filter with
  | Except.ok results => results.map chunkOfPoint
  | Except.error _ => []

/-- The context block for one chunk: `[Chapter: <chapter>]` header line
followed by the chunk text (the f-string inside the join). -/
def chunkBlock (c : Chunk) : String :=
  "[Chapter: " ++ c.chapter ++ "]\n" ++ c.text

/-- Python context assembly: the blank-line join of the chapter-header blocks,
as in the source `"\n\n".join(...)` over the retrieved chunks. -/
def buildContext (chunks : List Chunk) : String :=
  String.intercalate "\n\n" (chunks.map chunkBlock)

/-- Python `session_history[-3:]`: the last three entries (the whole list when
it has fewer than three). -/
def lastThree (l : List PyDict) : List PyDict :=
  l.drop (l.length - 3)

/-- The history loop: each rendered turn appends a `User:` line with the
question and an `Assistant:` line with the answer to the accumulator, where
the subscript reads of the question and answer keys raise `KeyError` on a
missing key (this loop runs outside any `try`). -/
def renderTurns (acc : String) : List PyDict → Except String String
  | [] => Except.ok acc
  | m :: rest =>
    match dictGet m "question" with
    | Except.error e => Except.error e
    | Except.ok q =>
      match dictGet m "answer" with
      | Except.error e => Except.error e
      | Except.ok a =>
        renderTurns (acc ++ "\nUser: " ++ q ++ "\nAssistant: " ++ a ++ "\n") rest

/-- The `history_text` as built by `chat_with_rag`: the render loop over the last
three entries (for `None` or `[]` the loop body never runs and the result is
`""`, so both are modelled by the empty list). -/
def buildHistoryText (session_history : List PyDict) : Except String String :=
  renderTurns "" (lastThree session_history)

/-- The apostrophe character, U+0027. -/
def apos : String := String.singleton (Char.ofNat 39)

/-- The fallback instruction that appears only in the no-selection prompt. -/
def fallbackInstruction : String :=
  "If the context doesn" ++ apos ++
    "t contain enough information, say so and provide general knowledge about the topic."

/-- The header line that introduces the selected-text block; it occurs only in
the with-selection prompt. -/
def selectionMarker : String := "The user selected this text:"

/-- The f-string prompt of the `if selected_text:` branch. -/
def promptWithSelection (selected_text question context history_text : String) : String :=
  "You are a helpful AI assistant for a Physical AI & Humanoid Robotics textbook.\n\nThe user selected this text:\n\"" ++
    selected_text ++
    "\"\n\nAnd asked: " ++
    question ++
    "\n\nRelevant context from the book:\n" ++
    context ++
    "\n\nPrevious conversation:\n" ++
    history_text ++
    "\n\nProvide a clear, educational answer focusing on the selected text and the question. Format your response with:\n- Clear explanations\n- Bullet points for lists\n- **Bold** for important terms\n- Proper paragraphs\n\nAnswer:"

/-- The f-string prompt of the `else` branch (no selected text). -/
def promptNoSelection (question context history_text : String) : String :=
  "You are a helpful AI assistant for a Physical AI & Humanoid Robotics textbook.\n\nUser question: " ++
    question ++
    "\n\nRelevant context from the book:\n" ++
    context ++
    "\n\nPrevious conversation:\n" ++
    history_text ++
    "\n\nProvide a clear, educational answer based on the context. Format your response with:\n- Clear explanations\n- Bullet points for lists\n- **Bold** for important terms\n- Proper paragraphs\n\n" ++
    fallbackInstruction ++
    "\n\nAnswer:"

/-- The prompt chosen by `chat_with_rag`: Python `if selected_text:` is truthy
only for a non-`None`, non-empty string. -/
def chatPrompt (question context history_text : String)
    (selected_text : Option String) : String :=
  match selected_text with
  | some s =>
    if s == "" then promptNoSelection question context history_text
    else promptWithSelection s question context history_text
  | none => promptNoSelection question context history_text

/-- Python `round(x, 3)` rounds half to even. -/
def pyRoundHalfEven (q : ℚ) : ℤ :=
  let f := ⌊q⌋
  let frac := q - (f : ℚ)
  if frac < 1/2 then f
  else if 1/2 < frac then f + 1
  else if f % 2 = 0 then f else f + 1

/-- Python `round(score, 3)`: round to three decimal places. -/
def pyRound3 (q : ℚ) : ℚ :=
  (pyRoundHalfEven (q * 1000) : ℚ) / 1000

/-- One entry of the `sources` list: `{"chapter", "section", "score"}`. -/
structure SourceEntry where
  chapter : String
  «section» : String
  score : ℚ

/-- The sources entry built from one retrieved chunk. -/
def sourceOfChunk (c : Chunk) : SourceEntry :=
  { chapter := c.chapter, «section» := c.«section», score := pyRound3 c.score }

/-- The dict returned by `chat_with_rag`: `{"answer", "sources"}`. -/
structure ChatResponse where
  answer : String
  sources : List SourceEntry

/-- The fixed prefix of the apology answer returned when generation fails. -/
def apologyText : String :=
  "Sorry, I encountered an error while generating the response. Please try again. Error: "

/-- Python `chat_with_rag(question, session_history, selected_text, chapter_filter)`:
search (guarded), context assembly, history rendering (unguarded: a `KeyError`
propagates as `Except.error`), prompt construction, then generation inside a
`try` whose `except` returns the apology answer with empty sources. -/
def chat_with_rag (P : Providers) (question : String)
    (session_history : List PyDict)
    (selected_text chapter_filter : Option String) :
    Except String ChatResponse :=
  let chunks := search_similar_chunks P question 3 chapter_filter
  let context := buildContext chunks
  match buildHistoryText session_history with
  | Except.error e => Except.error e
  | Except.ok history_text =>
    let prompt := chatPrompt question context history_text selected_text
    match P.generate_content prompt with
    | Except.ok answer =>
      Except.ok { answer := answer, sources := chunks.map sourceOfChunk }
    | Except.error e =>
      Except.ok { answer := apologyText ++ e, sources := [] }

/-- A history entry that has both the `"question"` and the `"answer"` key. -/
def wellFormedTurn (m : PyDict) : Prop :=
  (m.lookup "question").isSome ∧ (m.lookup "answer").isSome

instance (m : PyDict) : Decidable (wellFormedTurn m) := by
  unfold wellFormedTurn
  infer_instance

/-- The rendering of one history turn inside the loop. -/
def renderedTurn (q a : String) : String :=
  "\nUser: " ++ q ++ "\nAssistant: " ++ a ++ "\n"

/-- A well-formed history entry `{"question": q, "answer": a}`. -/
def mkTurn (q a : String) : PyDict := [("question", q), ("answer", a)]

/-- The string contains the apostrophe character U+0027. -/
def hasApos (s : String) : Prop := Char.ofNat 39 ∈ s.data

/-- The string contains the uppercase letter T. -/
def hasUpperT (s : String) : Prop := ( 'T' : Char) ∈ s.data

instance (s : String) : Decidable (hasApos s) := by
  unfold hasApos
  infer_instance

instance (s : String) : Decidable (hasUpperT s) := by
  unfold hasUpperT
  infer_instance

/-- Providers whose every remote call fails. -/
def Pfail : Providers :=
  { embed_content := fun _ => Except.error "embedding down"
    query_points := fun _ _ _ => Except.error "search down"
    qdrant_upsert := fun _ _ _ => Except.error "store down"
    generate_content := fun _ => Except.error "generation down" }

/-- Providers with a healthy two-point vector store and a healthy model. -/
def Pgen : Providers :=
  { embed_content := fun _ => Except.ok (List.replicate 768 0)
    query_points := fun _ _ _ => Except.ok
      [⟨[("text", "t1"), ("chapter", "ch1"), ("section", "s1")], 1/2⟩,
       ⟨[("text", "t2"), ("chapter", "ch2"), ("section", "s2")], 1/4⟩]
    qdrant_upsert := fun _ _ _ => Except.ok ()
    generate_content := fun _ => Except.ok "the answer" }

/-- Providers whose generation step echoes the prompt back, making the prompt
string sent to the generation provider observable in the answer. -/
def Pecho : Providers :=
  { embed_content := fun _ => Except.error "embedding down"
    query_points := fun _ _ _ => Except.ok []
    qdrant_upsert := fun _ _ _ => Except.ok ()
    generate_content := fun p => Except.ok p }

/-- C2: for every text, `generate_embedding` returns exactly 768 entries
(given that the embedding provider honours its `Vector[768]` interface on
success), and on provider failure it returns 768 zeros instead of
propagating the error. -/
theorem generate_embedding_dim (P : Providers) (text : String)
    (hok : ∀ v, P.embed_content text = Except.ok v → v.length = 768) :
    (generate_embedding P text).length = 768 ∧
      ∀ e, P.embed_content text = Except.error e →
        generate_embedding P text = List.replicate 768 0 := by
  constructor
  · unfold generate_embedding
    cases h : P.embed_content text with
    | ok v => exact hok v h
    | error e => rw [List.length_replicate]
  · intro e he
    unfold generate_embedding
    rw [he]

theorem generate_embedding_dim_witness :
    (generate_embedding Pfail "hello").length = 768 ∧
      ∀ e, Pfail.embed_content "hello" = Except.error e →
        generate_embedding Pfail "hello" = List.replicate 768 0 :=
  generate_embedding_dim Pfail "hello" (by intro v h; cases h)

/-- C3: when the vector-store search call fails, `search_similar_chunks`
returns the empty list instead of raising. -/
theorem search_similar_chunks_fail_empty (P : Providers) (query : String)
    (limit : Nat) (chapter_filter : Option String) (e : String)
    (hfail : P.query_points (generate_embedding P query) limit
        (mkSearchFilter chapter_filter) = Except.error e) :
    search_similar_chunks P query limit chapter_filter = [] := by
  simp only [search_similar_chunks]
  rw [hfail]

theorem search_similar_chunks_fail_empty_witness :
    search_similar_chunks Pfail "robots" 3 (some "Chapter 2") = [] :=
  search_similar_chunks_fail_empty Pfail "robots" 3 (some "Chapter 2") "search down" rfl

/-- C5: inside `upsert_document`, a vector-store write failure propagates to
the caller, while an embedding failure is still guarded and degrades the
written vector to 768 zeros. -/
theorem upsert_document_store_failure (P : Providers) (chunk_id text : String)
    (metadata : PyDict) :
    (∀ e, P.qdrant_upsert chunk_id (generate_embedding P text)
          (upsertPayload text metadata) = Except.error e →
        upsert_document P chunk_id text metadata = Except.error e) ∧
      ∀ e, P.embed_content text = Except.error e →
        upsert_document P chunk_id text metadata =
          P.qdrant_upsert chunk_id (List.replicate 768 0) (upsertPayload text metadata) := by
  constructor
  · intro e he
    simpa [upsert_document] using he
  · intro e he
    simp only [upsert_document, generate_embedding]
    rw [he]

theorem upsert_document_store_failure_witness :
    upsert_document Pfail "c1" "hello" [] = Except.error "store down" ∧
      upsert_document Pfail "c1" "hello" [] =
        Pfail.qdrant_upsert "c1" (List.replicate 768 0) (upsertPayload "hello" []) :=
  ⟨(upsert_document_store_failure Pfail "c1" "hello" []).1 "store down" rfl,
   (upsert_document_store_failure Pfail "c1" "hello" []).2 "embedding down" rfl⟩

/-- C10: a history entry among the last three that lacks the `"question"` key
makes `chat_with_rag` raise a `KeyError` that propagates to the caller
(the history-rendering loop runs outside the guarded generation block), for
every provider behaviour and every other argument. -/
theorem chat_with_rag_missing_key_raises (P : Providers) (question : String)
    (selected_text chapter_filter : Option String) :
    chat_with_rag P question [[("answer", "a")]] selected_text chapter_filter =
      Except.error "KeyError: question" := by
  simp [chat_with_rag, buildHistoryText, lastThree, renderTurns, dictGet, List.lookup]

theorem renderTurns_ok (l : List PyDict) (hwf : ∀ m ∈ l, wellFormedTurn m) :
    ∀ acc, ∃ s, renderTurns acc l = Except.ok s := by
  induction l with
  | nil => exact fun acc => ⟨acc, rfl⟩
  | cons m rest ih =>
    intro acc
    obtain ⟨h1, h2⟩ := hwf m (List.mem_cons_self m rest)
    obtain ⟨q, hq⟩ := Option.isSome_iff_exists.mp h1
    obtain ⟨a, ha⟩ := Option.isSome_iff_exists.mp h2
    have hrest := ih (fun m hm => hwf m (List.mem_cons_of_mem _ hm))
    simp only [renderTurns, dictGet, hq, ha]
    exact hrest _

/-- C1: with well-formed history entries, `chat_with_rag` returns an
`answer`/`sources` object for every question, history, selection and filter,
whatever the embedding, vector-store and generation providers do — provider
failures never surface as exceptions. -/
theorem chat_with_rag_total (P : Providers) (question : String)
    (session_history : List PyDict) (selected_text chapter_filter : Option String)
    (hwf : ∀ m ∈ session_history, wellFormedTurn m) :
    ∃ r : ChatResponse,
      chat_with_rag P question session_history selected_text chapter_filter =
        Except.ok r := by
  have hsub : ∀ m ∈ lastThree session_history, wellFormedTurn m := by
    intro m hm
    exact hwf m (List.mem_of_mem_drop hm)
  obtain ⟨s, hs⟩ := renderTurns_ok (lastThree session_history) hsub ""
  simp only [chat_with_rag, buildHistoryText, hs]
  cases hg : P.generate_content (chatPrompt question
      (buildContext (search_similar_chunks P question 3 chapter_filter)) s
      selected_text) with
  | ok a => exact ⟨_, rfl⟩
  | error e => exact ⟨_, rfl⟩

theorem chat_with_rag_total_witness :
    ∃ r : ChatResponse,
      chat_with_rag Pfail "What is a humanoid robot?"
        [[("question", "q1"), ("answer", "a1")]] none none = Except.ok r :=
  chat_with_rag_total Pfail "What is a humanoid robot?"
    [[("question", "q1"), ("answer", "a1")]] none none (by decide)

/-- C4: whenever the generation call fails, `chat_with_rag` returns the
apology answer with the error detail appended (so the error text occurs in
the answer) and an empty sources list, regardless of what the other
providers returned. -/
theorem chat_with_rag_generation_failure (P : Providers) (question : String)
    (session_history : List PyDict) (selected_text chapter_filter : Option String)
    (e : String)
    (hwf : ∀ m ∈ session_history, wellFormedTurn m)
    (hgen : ∀ p, P.generate_content p = Except.error e) :
    chat_with_rag P question session_history selected_text chapter_filter =
        Except.ok { answer := apologyText ++ e, sources := [] } ∧
      e.data <:+: (apologyText ++ e).data := by
  constructor
  · have hsub : ∀ m ∈ lastThree session_history, wellFormedTurn m := by
      intro m hm
      exact hwf m (List.mem_of_mem_drop hm)
    obtain ⟨s, hs⟩ := renderTurns_ok (lastThree session_history) hsub ""
    simp only [chat_with_rag, buildHistoryText, hs]
    rw [hgen]
  · rw [String.data_append]
    exact ((List.suffix_append apologyText.data e.data).isInfix)

theorem chat_with_rag_generation_failure_witness :
    chat_with_rag Pfail "q" [] none none =
        Except.ok { answer := apologyText ++ "generation down", sources := [] } ∧
      "generation down".data <:+: (apologyText ++ "generation down").data :=
  chat_with_rag_generation_failure Pfail "q" [] none none "generation down"
    (by simp) (fun _ => rfl)

/-- C9: when generation succeeds, the returned sources list is the retrieved
chunk list mapped, in order, to entries made of each chunk: its chapter, its
section and its score rounded to three decimal places. -/
theorem chat_with_rag_sources_spec (P : Providers) (question : String)
    (session_history : List PyDict) (selected_text chapter_filter : Option String)
    (answer : String)
    (hwf : ∀ m ∈ session_history, wellFormedTurn m)
    (hgen : ∀ p, P.generate_content p = Except.ok answer) :
    chat_with_rag P question session_history selected_text chapter_filter =
        Except.ok
          { answer := answer,
            sources := (search_similar_chunks P question 3 chapter_filter).map
              sourceOfChunk } ∧
      ∀ c : Chunk, sourceOfChunk c =
        { chapter := c.chapter, «section» := c.«section», score := pyRound3 c.score } := by
  constructor
  · have hsub : ∀ m ∈ lastThree session_history, wellFormedTurn m := by
      intro m hm
      exact hwf m (List.mem_of_mem_drop hm)
    obtain ⟨s, hs⟩ := renderTurns_ok (lastThree session_history) hsub ""
    simp only [chat_with_rag, buildHistoryText, hs]
    rw [hgen]
  · exact fun c => rfl

theorem chat_with_rag_sources_spec_witness :
    chat_with_rag Pgen "q" [] none none =
        Except.ok
          { answer := "the answer",
            sources := (search_similar_chunks Pgen "q" 3 none).map sourceOfChunk } ∧
      ∀ c : Chunk, sourceOfChunk c =
        { chapter := c.chapter, «section» := c.«section», score := pyRound3 c.score } :=
  chat_with_rag_sources_spec Pgen "q" [] none none "the answer"
    (by simp) (fun _ => rfl)

theorem dictGet_mkTurn_question (q a : String) :
    dictGet (mkTurn q a) "question" = Except.ok q := rfl

theorem dictGet_mkTurn_answer (q a : String) :
    dictGet (mkTurn q a) "answer" = Except.ok a := rfl

/-- C7: for a history of four or more turns (a non-empty prefix before the
final three), the rendered history text is exactly the rendering of the last
three turns, in their original order, each as a `User:` line followed by an
`Assistant:` line; the earlier turns leave no trace. -/
theorem buildHistoryText_last_three (pre : List PyDict) (q1 a1 q2 a2 q3 a3 : String)
    (_hpre : 1 ≤ pre.length) :
    buildHistoryText (pre ++ [mkTurn q1 a1, mkTurn q2 a2, mkTurn q3 a3]) =
      Except.ok (renderedTurn q1 a1 ++ renderedTurn q2 a2 ++ renderedTurn q3 a3) := by
  have hdrop : lastThree (pre ++ [mkTurn q1 a1, mkTurn q2 a2, mkTurn q3 a3]) =
      [mkTurn q1 a1, mkTurn q2 a2, mkTurn q3 a3] := by
    unfold lastThree
    rw [List.length_append]
    norm_num
  unfold buildHistoryText
  rw [hdrop]
  simp only [renderTurns, dictGet_mkTurn_question, dictGet_mkTurn_answer]
  simp only [renderedTurn, String.append_assoc, String.empty_append]

theorem buildHistoryText_last_three_witness :
    buildHistoryText ([mkTurn "q0" "a0"] ++ [mkTurn "q1" "a1", mkTurn "q2" "a2", mkTurn "q3" "a3"]) =
      Except.ok (renderedTurn "q1" "a1" ++ renderedTurn "q2" "a2" ++ renderedTurn "q3" "a3") :=
  buildHistoryText_last_three [mkTurn "q0" "a0"] "q1" "a1" "q2" "a2" "q3" "a3" (by decide)

theorem intercalate_go_append (sep : String) (l : List String) :
    ∀ acc₁ acc₂ : String, String.intercalate.go (acc₁ ++ acc₂) sep l =
      acc₁ ++ String.intercalate.go acc₂ sep l := by
  induction l with
  | nil =>
    intro a b
    simp [String.intercalate.go]
  | cons x xs ih =>
    intro a b
    simp only [String.intercalate.go]
    rw [String.append_assoc a b sep, String.append_assoc a (b ++ sep) x]
    exact ih a (b ++ sep ++ x)

/-- C8: the assembled context is the chunk blocks (`[Chapter: <chapter>]`
header line, then the chunk text) in retrieval order, with consecutive blocks
separated by a blank line, and it is empty for the empty chunk list. -/
theorem buildContext_spec :
    buildContext [] = "" ∧
      (∀ c : Chunk, buildContext [c] = chunkBlock c) ∧
      (∀ c : Chunk, chunkBlock c = "[Chapter: " ++ c.chapter ++ "]\n" ++ c.text) ∧
      ∀ (c c₂ : Chunk) (rest : List Chunk),
        buildContext (c :: c₂ :: rest) =
          chunkBlock c ++ "\n\n" ++ buildContext (c₂ :: rest) := by
  refine ⟨rfl, fun c => ?_, fun c => rfl, fun c c₂ rest => ?_⟩
  · simp [buildContext, String.intercalate, String.intercalate.go]
  · simp only [buildContext, List.map, String.intercalate]
    simp only [String.intercalate.go]
    exact intercalate_go_append "\n\n" (List.map chunkBlock rest)
      (chunkBlock c ++ "\n\n") (chunkBlock c₂)

theorem isInfix_appendExtend {n a : List Char} (b : List Char) (h : n <:+: a) :
    n <:+: a ++ b :=
  h.trans (List.prefix_append a b).isInfix

theorem hasApos_append (a b : String) : hasApos (a ++ b) ↔ hasApos a ∨ hasApos b := by
  unfold hasApos
  rw [String.data_append]
  exact List.mem_append

theorem hasUpperT_append (a b : String) : hasUpperT (a ++ b) ↔ hasUpperT a ∨ hasUpperT b := by
  unfold hasUpperT
  rw [String.data_append]
  exact List.mem_append

theorem apos_mem_fallbackInstruction : Char.ofNat 39 ∈ fallbackInstruction.data := by
  decide

theorem upperT_mem_selectionMarker : ( 'T' : Char) ∈ selectionMarker.data := by
  decide

theorem not_hasApos_promptWithSelection (s q c h : String)
    (h1 : ¬ hasApos s) (h2 : ¬ hasApos q) (h3 : ¬ hasApos c) (h4 : ¬ hasApos h) :
    ¬ hasApos (promptWithSelection s q c h) := by
  unfold promptWithSelection
  simp only [hasApos_append, not_or]
  refine ⟨⟨⟨⟨⟨⟨⟨⟨by decide, h1⟩, by decide⟩, h2⟩, by decide⟩, h3⟩, by decide⟩, h4⟩, by decide⟩

theorem not_hasUpperT_promptNoSelection (q c h : String)
    (h2 : ¬ hasUpperT q) (h3 : ¬ hasUpperT c) (h4 : ¬ hasUpperT h) :
    ¬ hasUpperT (promptNoSelection q c h) := by
  unfold promptNoSelection
  simp only [hasUpperT_append, not_or]
  refine ⟨⟨⟨⟨⟨⟨⟨⟨by decide, h2⟩, by decide⟩, h3⟩, by decide⟩, h4⟩, by decide⟩, by decide⟩, by decide⟩

theorem fallbackInstruction_isInfix_promptNoSelection (q c h : String) :
    fallbackInstruction.data <:+: (promptNoSelection q c h).data := by
  unfold promptNoSelection
  simp only [String.data_append]
  apply isInfix_appendExtend
  exact (List.suffix_append _ _).isInfix

theorem selected_isInfix_promptWithSelection (s q c h : String) :
    s.data <:+: (promptWithSelection s q c h).data := by
  unfold promptWithSelection
  simp only [String.data_append]
  apply isInfix_appendExtend
  apply isInfix_appendExtend
  apply isInfix_appendExtend
  apply isInfix_appendExtend
  apply isInfix_appendExtend
  apply isInfix_appendExtend
  apply isInfix_appendExtend
  exact (List.suffix_append _ _).isInfix

/-- C6 (amended): with a non-empty `selected_text`, `chat_with_rag` builds the
with-selection prompt, which contains the selected text verbatim and — when
no interpolated string supplies an apostrophe — cannot contain the fallback
instruction (whose own apostrophe would have to come from somewhere); with
`selected_text` omitted or empty (Python truthiness), it builds the
no-selection prompt, which contains the fallback instruction and — when no
interpolated string supplies an uppercase T — cannot contain the
selected-text header line. -/
theorem chatPrompt_selection_spec (question context history_text s : String)
    (hs : s ≠ "") :
    (chatPrompt question context history_text (some s) =
        promptWithSelection s question context history_text) ∧
      s.data <:+: (chatPrompt question context history_text (some s)).data ∧
      (¬ hasApos s → ¬ hasApos question → ¬ hasApos context → ¬ hasApos history_text →
        ¬ fallbackInstruction.data <:+:
            (chatPrompt question context history_text (some s)).data) ∧
      (∀ t : Option String, t = none ∨ t = some "" →
        chatPrompt question context history_text t =
          promptNoSelection question context history_text) ∧
      fallbackInstruction.data <:+: (promptNoSelection question context history_text).data ∧
      (¬ hasUpperT question → ¬ hasUpperT context → ¬ hasUpperT history_text →
        ¬ selectionMarker.data <:+: (promptNoSelection question context history_text).data) := by
  have heq : chatPrompt question context history_text (some s) =
      promptWithSelection s question context history_text := by
    simp [chatPrompt, hs]
  refine ⟨heq, ?_, ?_, ?_, ?_, ?_⟩
  · rw [heq]
    exact selected_isInfix_promptWithSelection s question context history_text
  · intro h1 h2 h3 h4 hinf
    rw [heq] at hinf
    exact not_hasApos_promptWithSelection s question context history_text h1 h2 h3 h4
      (hinf.subset apos_mem_fallbackInstruction)
  · rintro t (rfl | rfl) <;> simp [chatPrompt]
  · exact fallbackInstruction_isInfix_promptNoSelection question context history_text
  · intro h2 h3 h4 hinf
    exact not_hasUpperT_promptNoSelection question context history_text h2 h3 h4
      (hinf.subset upperT_mem_selectionMarker)

theorem chatPrompt_selection_spec_witness :
    ("actuators".data <:+: (chatPrompt "why" "ctx" "hist" (some "actuators")).data) ∧
      ¬ fallbackInstruction.data <:+: (chatPrompt "why" "ctx" "hist" (some "actuators")).data ∧
      fallbackInstruction.data <:+: (promptNoSelection "why" "ctx" "hist").data ∧
      ¬ selectionMarker.data <:+: (promptNoSelection "why" "ctx" "hist").data := by
  have h := chatPrompt_selection_spec "why" "ctx" "hist" "actuators" (by decide)
  exact ⟨h.2.1, h.2.2.1 (by decide) (by decide) (by decide) (by decide),
    h.2.2.2.2.1, h.2.2.2.2.2 (by decide) (by decide) (by decide)⟩

/-- C6 counterexample to the claim as stated: `selected_text` is provided
(as the empty string), yet the prompt sent to the generation provider — made
observable here by a generation oracle that echoes its prompt — is the
no-selection prompt and contains the fallback instruction the claim says must
be absent whenever `selected_text` is provided. -/
theorem chat_empty_selection_counterexample :
    chat_with_rag Pecho "q" [] (some "") none =
        Except.ok { answer := promptNoSelection "q" "" "", sources := [] } ∧
      fallbackInstruction.data <:+: (promptNoSelection "q" "" "").data :=
  ⟨rfl, fallbackInstruction_isInfix_promptNoSelection "q" "" ""⟩

end RagGemini
